import Mathlib

/-!
Verification of the network core of the Sci-Fi_OOP hexapod-robot client.

The definitions below are a shallow embedding of the Python sources under
`Code/Client`:
  - `src/core/network_manager.py` (`NetworkManager`)
  - `src/core/video.py`           (`VideoStream`)
  - `src/core/connections.py`     (`SocketConnection`, `DummyConnection`)
  - `src/core/thread_safe.py`     (`ThreadSafeValue`)
  - `Main.py`                     (the legacy `NetworkManager.connect` guard and
                                   `receive_instruction` command reader)

Machine bytes are modelled as `Nat` (one entry per byte), wall-clock delays as
rationals, and exceptions as explicit result constructors.  Reader threads are
modelled as explicit fuel-bounded loops over a deterministic byte source with
the semantics of the in-repo `DummyConnection` (receive returns the first
`size` buffered bytes).
-/

/-- Connection-state enum.  Modelled from the spec: `src/core/interfaces.py`
is not in the tree; spec section 3 lists the five states (the local enum of Main.py
omits `Disconnecting`, `network_manager.py` uses it). -/
inductive ConnectionState where
  | disconnected
  | connecting
  | connected
  | disconnecting
  | error
deriving DecidableEq, Repr

/-- Outcome of one try of `NetworkManager._connect_loop`: the control connect
raises `ConnectionError`, the video connect raises it, or both succeed.
(The video `Connection` object is only constructed after the control connect
has succeeded, per lines 131-136 of `network_manager.py`.) -/
inductive AttemptOutcome where
  | success
  | controlFail
  | videoFail
deriving DecidableEq, Repr

/-- Observable result of running `NetworkManager._connect_loop` to completion:
final manager state, the sleeps performed between failed tries (in order),
how many fresh `Connection` objects were constructed, and whether any
exception escaped the loop body. -/
structure LoopResult where
  finalState : ConnectionState
  sleeps : List ℚ
  built : ℕ
  raised : Bool
deriving DecidableEq, Repr

/-- One step of `_connect_loop` (`network_manager.py` lines 121-176), with the
stop event never set (nobody sets it during a connect).  `attempt` is the
Python `attempt` counter, `built` counts `self._connection_class()` calls,
`sleepsRev` accumulates the `time.sleep` arguments in reverse.  `fuel` is kept
equal to `maxAttempts - attempt` so the `while` guard `attempt <
self._reconnect_attempts` is exactly `fuel > 0`. -/
def connectLoopGo (outcome : ℕ → AttemptOutcome) (delay : ℚ) (maxAttempts : ℕ) :
    ℕ → ℕ → List ℚ → ℕ → LoopResult
  | _, built, sleepsRev, 0 =>
      -- while-guard exit: the loop body never ran out of attempts here
      -- without the except-branch break, so state is left as it was
      -- (`Connecting`, set by `connect` before spawning the thread).
      ⟨ConnectionState.connecting, sleepsRev.reverse, built, false⟩
  | attempt, built, sleepsRev, fuel + 1 =>
      match outcome attempt with
      | AttemptOutcome.success =>
          -- both connections built, channels started, state := CONNECTED, return
          ⟨ConnectionState.connected, sleepsRev.reverse, built + 2, false⟩
      | AttemptOutcome.controlFail =>
          -- only the control Connection object was constructed this try
          let attempt' := attempt + 1
          if maxAttempts ≤ attempt' then
            ⟨ConnectionState.disconnected, sleepsRev.reverse, built + 1, false⟩
          else
            connectLoopGo outcome delay maxAttempts attempt' (built + 1)
              (delay * 2 ^ (attempt' - 1) :: sleepsRev) fuel
      | AttemptOutcome.videoFail =>
          -- control connected, then the video connect raised: two objects built
          let attempt' := attempt + 1
          if maxAttempts ≤ attempt' then
            ⟨ConnectionState.disconnected, sleepsRev.reverse, built + 2, false⟩
          else
            connectLoopGo outcome delay maxAttempts attempt' (built + 2)
              (delay * 2 ^ (attempt' - 1) :: sleepsRev) fuel

/-- Model of `NetworkManager._connect_loop` run from a fresh `connect` call
(`attempt = 0`, nothing built, no sleeps yet). -/
def connectLoop (outcome : ℕ → AttemptOutcome) (delay : ℚ) (maxAttempts : ℕ) :
    LoopResult :=
  connectLoopGo outcome delay maxAttempts 0 0 [] maxAttempts

/-- Entry behaviour of `NetworkManager.connect` (`network_manager.py` lines
85-119): the state on return, whether an `InvalidStateError` was raised, and
whether the background connect thread was started. -/
structure ConnectCall where
  stateAfter : ConnectionState
  raisedInvalidState : Bool
  threadStarted : Bool
deriving DecidableEq, Repr

/-- Model of `NetworkManager.connect` of `src/core/network_manager.py`: if already
`CONNECTED` it logs a warning and returns; otherwise it tears down any
existing channels and restarts, sets state to `CONNECTING` and spawns
`_connect_loop` on a daemon thread.  It never raises `InvalidStateError`. -/
def nmConnect (st : ConnectionState) : ConnectCall :=
  if st = ConnectionState.connected then
    ⟨st, false, false⟩
  else
    ⟨ConnectionState.connecting, false, true⟩

/-- Entry guard of the legacy `NetworkManager.connect` in `Main.py` (lines
156-218): raises `InvalidStateError` only when the state is `CONNECTED`;
in every other state it proceeds and sets the state to `CONNECTING`. -/
def mainConnectEntry (st : ConnectionState) : ConnectionState × Bool :=
  if st = ConnectionState.connected then
    (st, true)
  else
    (ConnectionState.connecting, false)

/-! ## VideoStream (`src/core/video.py`) -/

/-- State of a `VideoStream` together with the byte source feeding its
connection.  `input` are the bytes the connection will deliver (the
`DummyConnection` semantics: `receive(n)` hands over the first `n` buffered
bytes); `running` is `self._running`, `frameReady` the `self._frame_ready`
event, `currentFrame` the latest-frame slot, and `delivered` records every
frame stored, in order. -/
structure VideoState where
  input : List ℕ
  running : Bool
  frameReady : Bool
  currentFrame : Option (List ℕ)
  delivered : List (List ℕ)
deriving DecidableEq, Repr

/-- Decoding as in `struct.unpack` with a `<L` format: a 4-byte little-endian
unsigned int. -/
def decodeLE4 : List ℕ → ℕ
  | [b0, b1, b2, b3] => b0 + 256 * b1 + 65536 * b2 + 16777216 * b3
  | _ => 0

/-- Encoding as in `struct.pack` with a `<L` format, for `n < 2^32`. -/
def encodeLE4 (n : ℕ) : List ℕ :=
  [n % 256, n / 256 % 256, n / 65536 % 256, n / 16777216 % 256]

/-- Model of `VideoStream._stream_loop` (`video.py` lines 91-152) over a finite byte
source, fuel-bounded.  Each iteration: read a 4-byte header (`continue` if
short), decode `L`, log-and-`continue` when `L == 0` or `L > 10*1024*1024`,
otherwise read `L` payload bytes in chunks (short data ends the inner loop
and the outer iteration `continue`s), store the frame and set the
frame-ready event. -/
def streamLoopGo : ℕ → VideoState → VideoState
  | 0, s => s
  | fuel + 1, s =>
      if s.running = false then s
      else
        let header := s.input.take 4
        let rest := s.input.drop 4
        if header.length ≠ 4 then
          streamLoopGo fuel { s with input := rest }
        else
          let frameLength := decodeLE4 header
          if frameLength = 0 ∨ 10 * 1024 * 1024 < frameLength then
            -- logger.warning, then `continue`: the loop keeps running and the
            -- next iteration reads the following bytes as a new header
            streamLoopGo fuel { s with input := rest }
          else
            let payload := rest.take frameLength
            if payload.length ≠ frameLength then
              streamLoopGo fuel { s with input := rest.drop frameLength }
            else
              streamLoopGo fuel
                { s with
                  input := rest.drop frameLength
                  currentFrame := some payload
                  frameReady := true
                  delivered := s.delivered ++ [payload] }

/-- The `except ConnectionError` branch of `_stream_loop` (lines 137-140):
the loop sets `self._running.value = False` and breaks. -/
def streamLoopOnConnError (s : VideoState) : VideoState :=
  { s with running := false }

/-- Model of `VideoStream.get_frame` (`video.py` lines 75-89).  The wait on
`self._frame_ready` is modelled by the `frameReady` flag: a timeout with the
event unset returns `None`. -/
def getFrame (s : VideoState) : Option (List ℕ) :=
  if s.running = false then none
  else if s.frameReady then s.currentFrame
  else none

/-- Model of `VideoStream.stop` (`video.py` lines 58-73): no-op when not running,
otherwise clears `running` and sets the frame-ready event to unblock
waiters. -/
def videoStop (s : VideoState) : VideoState :=
  if s.running = false then s
  else { s with running := false, frameReady := true }

/-! ## Connections (`src/core/connections.py`) -/

/-- Result of one `receive` call, with the two error outcomes the spec
distinguishes kept as separate constructors. -/
inductive RecvResult where
  | data (bytes : List ℕ)
  | connError
  | timeout
deriving DecidableEq, Repr

/-- What the underlying `socket.recv` does during a
`SocketConnection.receive` call. -/
inductive SockEvent where
  | bytes (b : List ℕ)
  | timedOut
  | osError
deriving DecidableEq, Repr

/-- Model of `SocketConnection.receive` (`connections.py` lines 123-153): raises
`ConnectionError` when not connected; a zero-length `recv` marks the
connection `DISCONNECTED` and raises `ConnectionError`; `socket.timeout`
becomes `TimeoutError`; another socket error marks `DISCONNECTED` and raises
`ConnectionError`; otherwise the received bytes are returned. -/
def socketReceive (st : ConnectionState) (ev : SockEvent) :
    RecvResult × ConnectionState :=
  if st ≠ ConnectionState.connected then (RecvResult.connError, st)
  else
    match ev with
    | SockEvent.bytes [] => (RecvResult.connError, ConnectionState.disconnected)
    | SockEvent.bytes b => (RecvResult.data b, st)
    | SockEvent.timedOut => (RecvResult.timeout, st)
    | SockEvent.osError => (RecvResult.connError, ConnectionState.disconnected)

/-- Model of `DummyConnection.receive` (`connections.py` lines 208-215): raises
`ConnectionError` when not connected, otherwise returns `buffer[:size]`
(possibly empty) and keeps the remainder buffered.  It has no timeout
outcome. -/
def dummyReceive (st : ConnectionState) (buffer : List ℕ) (size : ℕ) :
    RecvResult × List ℕ :=
  if st ≠ ConnectionState.connected then (RecvResult.connError, buffer)
  else (RecvResult.data (buffer.take size), buffer.drop size)

/-! ## ThreadSafeValue (`src/core/thread_safe.py`) -/

/-- An observer registered on a `ThreadSafeValue`; `raises old new` says
whether calling it on that change throws. -/
structure TSCallback (α : Type) where
  id : ℕ
  raises : α → α → Bool

/-- A `ThreadSafeValue`: the stored value and the registered callbacks in
registration order. -/
structure TSValue (α : Type) where
  val : α
  callbacks : List (TSCallback α)

/-- Events observable during the `value` setter: taking and releasing the
outer `self._lock`, and each callback invocation (the reentrant inner
acquire in `_notify_observers` is by the same `RLock` and adds no outer
release). -/
inductive TSEvent (α : Type) where
  | lockAcquire
  | invoke (id : ℕ) (old new : α) (raised : Bool)
  | lockRelease
deriving DecidableEq, Repr

/-- Model of `ThreadSafeValue._notify_observers` (`thread_safe.py` lines 75-88): every
callback in the snapshot is called in order with `(old, new)`; an exception
is caught and logged, so later callbacks still run. -/
def notifyObservers {α : Type} (cbs : List (TSCallback α)) (old new : α) :
    List (TSEvent α) :=
  cbs.map (fun cb => TSEvent.invoke cb.id old new (cb.raises old new))

/-- The `value` setter of `ThreadSafeValue` (`thread_safe.py` lines 32-43):
under the lock, if the new value differs, store it and notify the observers
— still inside the `with self._lock` block.  Returns the new container state
and the event trace of the call. -/
def setValue {α : Type} [DecidableEq α] (s : TSValue α) (v : α) :
    TSValue α × List (TSEvent α) :=
  if s.val = v then
    (s, [TSEvent.lockAcquire, TSEvent.lockRelease])
  else
    ({ s with val := v },
      TSEvent.lockAcquire :: (notifyObservers s.callbacks s.val v ++ [TSEvent.lockRelease]))

/-- Is an event a callback invocation? -/
def isInvoke {α : Type} : TSEvent α → Bool
  | TSEvent.invoke _ _ _ _ => true
  | _ => false

/-- Scans a trace checking that every callback invocation happens while the
lock is not held: a `lockRelease` enables invocations, a `lockAcquire`
disables them again. -/
def invokesOnlyAfterRelease {α : Type} : Bool → List (TSEvent α) → Bool
  | _, [] => true
  | _, TSEvent.lockAcquire :: rest => invokesOnlyAfterRelease false rest
  | _, TSEvent.lockRelease :: rest => invokesOnlyAfterRelease true rest
  | released, TSEvent.invoke _ _ _ _ :: rest =>
      released && invokesOnlyAfterRelease released rest

/-! ## NetworkManager pass-throughs and disconnect
(`src/core/network_manager.py`) -/

/-- The `NetworkManager` fields a `disconnect`/`send_command`/
`get_video_frame` call reads and writes: the state plus whether each channel
object and connection is present (`None` / not `None`). -/
structure NMFull where
  state : ConnectionState
  hasVideoStream : Bool
  hasCommandProcessor : Bool
  hasControlConn : Bool
  hasVideoConn : Bool
deriving DecidableEq, Repr

/-- Model of `NetworkManager._disconnect` (`network_manager.py` lines 184-219): no-op
when already `DISCONNECTED`; otherwise moves through `DISCONNECTING`, stops
both channels and closes both connections — each in its own `try/except`, so
the three flags saying whether `stop()`/`close()` raise cannot change the
result — and ends `DISCONNECTED` with every channel and connection field
cleared. -/
def nmDisconnectInternal (nm : NMFull)
    (videoStopRaises cmdStopRaises connCloseRaises : Bool) : NMFull :=
  if nm.state = ConnectionState.disconnected then nm
  else
    let _ := (videoStopRaises, cmdStopRaises, connCloseRaises)
    ⟨ConnectionState.disconnected, false, false, false, false⟩

/-- Model of `NetworkManager.disconnect` (`network_manager.py` lines 178-182): stops
the reconnect thread (touches none of the modelled fields) and runs
`_disconnect`. -/
def nmDisconnect (nm : NMFull)
    (videoStopRaises cmdStopRaises connCloseRaises : Bool) : NMFull :=
  nmDisconnectInternal nm videoStopRaises cmdStopRaises connCloseRaises

/-- Result of `NetworkManager.send_command`. -/
inductive SendOutcome where
  | raisedConnError
  | delegated
deriving DecidableEq, Repr

/-- Model of `NetworkManager.send_command` (`network_manager.py` lines 258-276):
`if not self.is_connected or not self._command_processor: raise
ConnectionError` — otherwise delegate to the command processor.  The `Bool`
in the result records whether any I/O (the delegated call) was performed. -/
def nmSendCommand (nm : NMFull) : SendOutcome × Bool :=
  if nm.state = ConnectionState.connected then
    if nm.hasCommandProcessor then (SendOutcome.delegated, true)
    else (SendOutcome.raisedConnError, false)
  else (SendOutcome.raisedConnError, false)

/-- Model of `NetworkManager.get_video_frame` (`network_manager.py` lines 278-290):
returns `None` unless connected with a video stream, otherwise delegates to
`self._video_stream.get_frame`, whose answer is `streamAnswer`. -/
def nmGetVideoFrame (nm : NMFull) (streamAnswer : Option (List ℕ)) :
    Option (List ℕ) :=
  if nm.state = ConnectionState.connected then
    if nm.hasVideoStream then streamAnswer else none
  else none

/-! ## The `Main.py` command reader (`receive_instruction`, lines 1219-1259) -/

/-- The Python `str.split(sep)` operation for a one-character separator: splits on
every
occurrence, keeping empty segments (so a trailing separator yields a final
empty segment). -/
def pySplit (sep : Char) : List Char → List (List Char)
  | [] => [[]]
  | c :: rest =>
      if c = sep then [] :: pySplit sep rest
      else
        match pySplit sep rest with
        | [] => [[c]]
        | seg :: segs => (c :: seg) :: segs

/-- Processing of one `receive_data` result in `receive_instruction`:
`cmdArray = alldata.split` on newline, then the line
`cmdArray==cmdArray[:-1]` — a comparison whose result is discarded, so the
trailing unterminated segment is NOT removed — and every element is split on
`#` into a record (`data = oneCmd.split("#")`) and dispatched. -/
def parseChunk (alldata : List Char) : List (List (List Char)) :=
  let cmdArray := pySplit (Char.ofNat 10) alldata
  let _ := if cmdArray.getLast? ≠ some [] then cmdArray.dropLast else cmdArray
  cmdArray.map (fun oneCmd => pySplit '#' oneCmd)

/-- The `receive_instruction` reader loop over the sequence of
`receive_data` results: an empty string breaks the loop; otherwise the chunk
is parsed and dispatched immediately — no bytes are carried over to the next
receive. -/
def receiveRecords : List (List Char) → List (List (List Char))
  | [] => []
  | chunk :: rest =>
      if chunk = [] then []
      else parseChunk chunk ++ receiveRecords rest

/-! ## Theorems -/

/-- Helper for C1: running `_connect_loop` when the video connect fails every
try.  With `fuel` tries left (`attempt + fuel = maxAttempts`), the loop
builds two connections per try, sleeps `delay * 2 ^ (try - 1)` after every
failed try except the last, ends `DISCONNECTED`, and no exception escapes. -/
theorem connectLoopGo_videoFail (delay : ℚ) (maxAttempts : ℕ) :
    ∀ (fuel attempt built : ℕ) (sleepsRev : List ℚ),
      attempt + fuel = maxAttempts → 1 ≤ fuel →
      connectLoopGo (fun _ => AttemptOutcome.videoFail) delay maxAttempts
          attempt built sleepsRev fuel =
        ⟨ConnectionState.disconnected,
          sleepsRev.reverse ++
            (List.range (fuel - 1)).map (fun k => delay * 2 ^ (attempt + k)),
          built + 2 * fuel, false⟩ := by
  intro fuel
  induction fuel with
  | zero => intro attempt built sleepsRev _ h1; exact absurd h1 (by omega)
  | succ n ih =>
      intro attempt built sleepsRev hsum _
      cases n with
      | zero =>
          have hle : maxAttempts ≤ attempt + 1 := by omega
          norm_num [connectLoopGo, hle]
      | succ m =>
          have hlt : ¬ maxAttempts ≤ attempt + 1 := by omega
          have hrec := ih (attempt + 1) (built + 2)
            (delay * 2 ^ (attempt + 1 - 1) :: sleepsRev) (by omega) (by omega)
          conv_lhs => rw [connectLoopGo]
          dsimp only
          rw [if_neg hlt, hrec]
          have hexp : ∀ k : ℕ, attempt + 1 + k = attempt + (k + 1) := by omega
          simp [List.range_succ_eq_map, List.map_map, Function.comp, hexp,
            List.reverse_cons, List.append_assoc]
          omega

/-- C1 (amended): a `_connect_loop` whose video connect fails on every try
performs up to `maxAttempts` tries, each building two fresh Connections;
between failed tries it sleeps `delay * 2 ^ (try - 1)` (the multiplier is
fixed at 2 in the source); after the last failed try the state is set to
`DISCONNECTED` and the loop returns without raising — the `ConnectionError`
of each try is caught, and nothing is raised to the caller of `connect`,
which returned as soon as the loop thread started. -/
theorem C1_connect_loop_backoff (delay : ℚ) (maxAttempts : ℕ)
    (h : 1 ≤ maxAttempts) :
    connectLoop (fun _ => AttemptOutcome.videoFail) delay maxAttempts =
      ⟨ConnectionState.disconnected,
        (List.range (maxAttempts - 1)).map (fun k => delay * 2 ^ k),
        2 * maxAttempts, false⟩ := by
  have hgo := connectLoopGo_videoFail delay maxAttempts maxAttempts 0 0 []
    (by omega) h
  simpa [connectLoop] using hgo

/-- Witness for C1 at the parameters of the claim, `base_delay = 1`, `multiplier =
2`, `max_attempts = 3`: the sleeps are 1.0s and 2.0s (3.0s in total), six
Connection objects are built, and the final state is `Disconnected`. -/
theorem C1_witness :
    connectLoop (fun _ => AttemptOutcome.videoFail) 1 3 =
      ⟨ConnectionState.disconnected, [1, 2], 6, false⟩ ∧
    (connectLoop (fun _ => AttemptOutcome.videoFail) 1 3).sleeps.sum = 3 := by
  have h := C1_connect_loop_backoff 1 3 (by norm_num)
  constructor
  · rw [h]
    norm_num [List.range_succ]
  · rw [h]
    norm_num [List.range_succ]

/-- Counterexample for C1 as stated: when every attempt fails, the loop ends
with state `Disconnected` after sleeping 1.0s and 2.0s, but no
`ConnectionError` escapes — `raised = false` — so "the call fails with
ConnectionError" is false of the code. -/
theorem C1_counterexample :
    (connectLoop (fun _ => AttemptOutcome.videoFail) 1 3).raised = false ∧
    (connectLoop (fun _ => AttemptOutcome.videoFail) 1 3).finalState =
      ConnectionState.disconnected ∧
    (connectLoop (fun _ => AttemptOutcome.videoFail) 1 3).sleeps = [1, 2] := by
  norm_num [connectLoop, connectLoopGo]

/-- C2 (amended): the `NetworkManager.connect` of `network_manager.py` never
raises `InvalidStateError` — when state is `Connected` it returns as a
silent no-op with the state unchanged and no thread started; in every other
state (including `Connecting`, `Disconnecting` and `Error`) it proceeds,
sets the state to `Connecting` and starts the background connect thread.
The legacy `Main.py` `NetworkManager.connect` raises `InvalidStateError`
exactly when the state is `Connected` (leaving it unchanged), and otherwise
proceeds to `Connecting`. -/
theorem C2_connect_guard (st : ConnectionState) :
    (nmConnect st).raisedInvalidState = false ∧
    (st = ConnectionState.connected →
      nmConnect st = ⟨ConnectionState.connected, false, false⟩) ∧
    (st ≠ ConnectionState.connected →
      nmConnect st = ⟨ConnectionState.connecting, false, true⟩) ∧
    ((mainConnectEntry st).2 = true ↔ st = ConnectionState.connected) ∧
    (st = ConnectionState.connected → (mainConnectEntry st).1 = st) := by
  cases st <;> simp [nmConnect, mainConnectEntry]

/-- Witness for C2 at the two interesting inputs. -/
theorem C2_witness :
    nmConnect ConnectionState.connected =
      ⟨ConnectionState.connected, false, false⟩ ∧
    nmConnect ConnectionState.disconnected =
      ⟨ConnectionState.connecting, false, true⟩ := by
  refine ⟨(C2_connect_guard ConnectionState.connected).2.1 rfl,
    (C2_connect_guard ConnectionState.disconnected).2.2.1 (by decide)⟩

/-- Counterexample for C2 as stated: in the `Error` state — a state other
than `Disconnected` — neither `connect` raises `InvalidStateError`, and both
change the state to `Connecting` rather than leaving it unchanged. -/
theorem C2_counterexample :
    (nmConnect ConnectionState.error).raisedInvalidState = false ∧
    (nmConnect ConnectionState.error).stateAfter = ConnectionState.connecting ∧
    (mainConnectEntry ConnectionState.error).2 = false ∧
    (mainConnectEntry ConnectionState.error).1 = ConnectionState.connecting := by
  decide

/-- Helper for C3 and C10: the dummy-fed `_stream_loop` never changes
`self._running`; only `stop()` or a `ConnectionError` from `receive`
does. -/
theorem streamLoopGo_preserves_running :
    ∀ (n : ℕ) (t : VideoState), (streamLoopGo n t).running = t.running := by
  intro n
  induction n with
  | zero => intro t; rfl
  | succ n ih =>
      intro t
      cases hr : t.running with
      | false => simp [streamLoopGo, hr]
      | true =>
          conv_lhs => rw [streamLoopGo]
          rw [hr]
          simp only [Bool.true_eq_false, if_false]
          split
          · rw [ih]
          · split
            · rw [ih]
            · split
              · rw [ih]
              · rw [ih]

/-- C3 (amended): when the decoded frame length is 0 or exceeds the 10 MiB
maximum, `_stream_loop` logs and `continue`s: the offending 4 header bytes
are consumed, no payload bytes are read for that frame, and the loop goes on
to treat the following bytes as the next header.  It neither sets any error
state nor stops: `running` is never cleared by the loop body. -/
theorem C3_invalid_length_skips_and_continues (s : VideoState) (fuel : ℕ)
    (hrun : s.running = true)
    (hlen : (s.input.take 4).length = 4)
    (hbad : decodeLE4 (s.input.take 4) = 0 ∨
      10 * 1024 * 1024 < decodeLE4 (s.input.take 4)) :
    streamLoopGo (fuel + 1) s = streamLoopGo fuel { s with input := s.input.drop 4 } ∧
    (∀ (n : ℕ) (t : VideoState), (streamLoopGo n t).running = t.running) := by
  refine ⟨?_, streamLoopGo_preserves_running⟩
  conv_lhs => rw [streamLoopGo]
  rw [hrun]
  simp only [Bool.true_eq_false, if_false]
  rw [if_neg (by rw [hlen]; exact fun hc => hc rfl), if_pos hbad]

/-- Witness for C3: a header declaring `L = 10*1024*1024 + 1` (bytes
`[1, 0, 160, 0]`) is consumed whole and the loop simply continues on the
rest of the input, with `running` still true afterwards. -/
theorem C3_witness :
    streamLoopGo 1 ⟨[1, 0, 160, 0, 9, 9, 9, 9], true, false, none, []⟩ =
      streamLoopGo 0 ⟨[9, 9, 9, 9], true, false, none, []⟩ ∧
    (streamLoopGo 5 ⟨[], true, false, none, []⟩).running = true := by
  have h := C3_invalid_length_skips_and_continues
    ⟨[1, 0, 160, 0, 9, 9, 9, 9], true, false, none, []⟩ 0 rfl (by decide)
    (by decide)
  exact ⟨h.1, h.2 5 ⟨[], true, false, none, []⟩⟩

/-- Counterexample for C3 as stated: feeding the oversized length
`10*1024*1024 + 1` followed by a well-formed 8-byte frame, the reader does
NOT stop — it stays running, skips to the next header and delivers the
following frame, so the condition is not treated as fatal for the
channel. -/
theorem C3_counterexample :
    streamLoopGo 2 ⟨encodeLE4 10485761 ++ encodeLE4 8 ++ [1, 2, 3, 4, 5, 6, 7, 8],
        true, false, none, []⟩ =
      ⟨[], true, true, some [1, 2, 3, 4, 5, 6, 7, 8], [[1, 2, 3, 4, 5, 6, 7, 8]]⟩ := by
  decide

/-- C4 (amended): the `receive_instruction` reader keeps no buffer between
receives — each nonempty `receive_data` result is split on newlines and each
segment, a trailing unterminated one included (the source line
`cmdArray==cmdArray[:-1]` compares instead of assigning and changes
nothing), is split on `#` and dispatched immediately, in wire order. -/
theorem C4_reader_is_memoryless (chunk : List Char) (rest : List (List Char))
    (h : chunk ≠ []) :
    receiveRecords (chunk :: rest) = parseChunk chunk ++ receiveRecords rest := by
  simp [receiveRecords, h]

/-- Witness for C4 on the second receive of the scenario in the claim. -/
theorem C4_witness :
    receiveRecords ["b\nCMD2#c\n".data] = parseChunk "b\nCMD2#c\n".data := by
  have h := C4_reader_is_memoryless "b\nCMD2#c\n".data [] (by decide)
  simpa using h

/-- Counterexample for C4 as stated: feeding `"CMD1#a#"` then
`"b\nCMD2#c\n"` yields the four records
`["CMD1","a",""]`, `["b"]`, `["CMD2","c"]`, `[""]` — the split record is not
reassembled and the trailing bytes of the first receive are dispatched at
once instead of being buffered — not the claimed two records. -/
theorem C4_counterexample :
    receiveRecords ["CMD1#a#".data, "b\nCMD2#c\n".data] =
      [["CMD1".data, "a".data, []], ["b".data], ["CMD2".data, "c".data], [[]]] ∧
    receiveRecords ["CMD1#a#".data, "b\nCMD2#c\n".data] ≠
      [["CMD1".data, "a".data, "b".data], ["CMD2".data, "c".data]] := by
  decide

/-- C5 (amended): `SocketConnection.receive` does satisfy the contract —
nonempty data is returned as-is, a zero-length read raises
`ConnectionError` marking the connection `DISCONNECTED`, and a timeout is a
distinct outcome; it never yields an empty byte string as a normal result.
`DummyConnection.receive` does not satisfy it: on a connected, empty-buffer
receive it returns `buffer[:size]`, i.e. the empty byte string, as a normal
result, and it has no timeout outcome at all. -/
theorem C5_receive_contract (b : List ℕ) (hb : b ≠ []) :
    (∀ ev : SockEvent,
      (socketReceive ConnectionState.connected ev).1 ≠ RecvResult.data []) ∧
    socketReceive ConnectionState.connected (SockEvent.bytes b) =
      (RecvResult.data b, ConnectionState.connected) ∧
    socketReceive ConnectionState.connected (SockEvent.bytes []) =
      (RecvResult.connError, ConnectionState.disconnected) ∧
    socketReceive ConnectionState.connected SockEvent.timedOut =
      (RecvResult.timeout, ConnectionState.connected) ∧
    (∀ (st : ConnectionState) (buf : List ℕ) (n : ℕ),
      (dummyReceive st buf n).1 ≠ RecvResult.timeout) ∧
    (∀ (buf : List ℕ) (n : ℕ),
      dummyReceive ConnectionState.connected buf n =
        (RecvResult.data (buf.take n), buf.drop n)) := by
  refine ⟨?_, ?_, by decide, by decide, ?_, ?_⟩
  · intro ev
    cases ev with
    | bytes l => cases l <;> simp [socketReceive]
    | timedOut => simp [socketReceive]
    | osError => simp [socketReceive]
  · cases b with
    | nil => exact absurd rfl hb
    | cons x xs => simp [socketReceive]
  · intro st buf n
    by_cases hst : st = ConnectionState.connected <;> simp [dummyReceive, hst]
  · intro buf n
    simp [dummyReceive]

/-- Witness for C5 at a one-byte read. -/
theorem C5_witness :
    socketReceive ConnectionState.connected (SockEvent.bytes [7]) =
      (RecvResult.data [7], ConnectionState.connected) ∧
    socketReceive ConnectionState.connected SockEvent.timedOut =
      (RecvResult.timeout, ConnectionState.connected) := by
  exact ⟨(C5_receive_contract [7] (by decide)).2.1,
    (C5_receive_contract [7] (by decide)).2.2.2.1⟩

/-- Counterexample for C5 as stated: the in-memory test double, connected
but with nothing buffered, returns the empty byte string as a normal
result — neither a `ConnectionError` nor a timeout outcome — so the two
`Connection` variants do not both meet the receive contract. -/
theorem C5_counterexample :
    dummyReceive ConnectionState.connected [] 4096 = (RecvResult.data [], []) ∧
    RecvResult.data [] ≠ RecvResult.connError ∧
    RecvResult.data ([] : List ℕ) ≠ RecvResult.timeout := by
  decide

/-- C6 (confirmed): whenever the manager state is not `Connected`,
`send_command` raises `ConnectionError` having performed no I/O and
`get_video_frame` returns `None`; when `Connected` with the channel objects
present, both are pass-throughs — `send_command` delegates to the command
processor and `get_video_frame` returns exactly the answer of the video
stream. -/
theorem C6_fail_fast_pass_through (nm : NMFull) (ans : Option (List ℕ)) :
    (nm.state ≠ ConnectionState.connected →
      nmSendCommand nm = (SendOutcome.raisedConnError, false) ∧
      nmGetVideoFrame nm ans = none) ∧
    (nm.state = ConnectionState.connected → nm.hasCommandProcessor = true →
      nmSendCommand nm = (SendOutcome.delegated, true)) ∧
    (nm.state = ConnectionState.connected → nm.hasVideoStream = true →
      nmGetVideoFrame nm ans = ans) := by
  refine ⟨fun h => ?_, fun h hp => ?_, fun h hs => ?_⟩
  · simp [nmSendCommand, nmGetVideoFrame, h]
  · simp [nmSendCommand, h, hp]
  · simp [nmGetVideoFrame, h, hs]

/-- Witness for C6: a disconnected manager fails fast, a connected one with
both channels passes a frame through. -/
theorem C6_witness :
    nmSendCommand ⟨ConnectionState.disconnected, false, false, false, false⟩ =
      (SendOutcome.raisedConnError, false) ∧
    nmGetVideoFrame ⟨ConnectionState.disconnected, false, false, false, false⟩
      (some [1, 2]) = none ∧
    nmSendCommand ⟨ConnectionState.connected, true, true, true, true⟩ =
      (SendOutcome.delegated, true) ∧
    nmGetVideoFrame ⟨ConnectionState.connected, true, true, true, true⟩
      (some [1, 2]) = some [1, 2] := by
  refine ⟨((C6_fail_fast_pass_through
      ⟨ConnectionState.disconnected, false, false, false, false⟩
      (some [1, 2])).1 (by decide)).1,
    ((C6_fail_fast_pass_through
      ⟨ConnectionState.disconnected, false, false, false, false⟩
      (some [1, 2])).1 (by decide)).2,
    (C6_fail_fast_pass_through
      ⟨ConnectionState.connected, true, true, true, true⟩
      (some [1, 2])).2.1 rfl rfl,
    (C6_fail_fast_pass_through
      ⟨ConnectionState.connected, true, true, true, true⟩
      (some [1, 2])).2.2 rfl rfl⟩

/-- C7 (amended): `set` invokes the registered callbacks, each exactly once
and in registration order with `(old, new)`, if and only if the new value
differs from the prior one; a callback that raises is caught — the callbacks
after it still appear in the trace and `set` still returns with the value
stored.  But the invocations happen while the internal lock is still held
(`_notify_observers` runs inside the `with self._lock` block of the setter):
the lock release is the last event of the trace, after every invocation. -/
theorem C7_set_notifies_iff_changed {α : Type} [DecidableEq α]
    (s : TSValue α) (v : α) :
    ((setValue s v).2.filter (fun e => isInvoke e) =
      if s.val = v then []
      else s.callbacks.map
        (fun cb => TSEvent.invoke cb.id s.val v (cb.raises s.val v))) ∧
    ((setValue s v).1.val = if s.val = v then s.val else v) ∧
    ((setValue s v).2.getLast? = some TSEvent.lockRelease) := by
  by_cases h : s.val = v
  · simp [setValue, h, isInvoke]
  · refine ⟨?_, by simp [setValue, h], ?_⟩
    · simp [setValue, h, notifyObservers, List.filter_append, List.filter_map,
        Function.comp, isInvoke, List.filter_cons]
      congr 1
      exact List.filter_eq_self.mpr (fun a _ => rfl)
    · simp only [setValue, if_neg h]
      rw [← List.cons_append, List.getLast?_concat]

/-- Counterexample for C7 as stated: with one registered callback and a
changing `set(1)` from value 0, the callback is invoked (one invoke event in
the trace), yet no invocation in the trace happens after a lock release —
the scan `invokesOnlyAfterRelease` rejects the trace, because the release is
the last event. -/
theorem C7_counterexample :
    invokesOnlyAfterRelease false
      (setValue (⟨0, [⟨1, fun _ _ => false⟩]⟩ : TSValue ℕ) 1).2 = false ∧
    (setValue (⟨0, [⟨1, fun _ _ => false⟩]⟩ : TSValue ℕ) 1).2.countP
      (fun e => isInvoke e) = 1 := by
  constructor
  · rfl
  · rfl

/-- C8 (confirmed): `disconnect` always ends with state `Disconnected`, a
second call is a no-op on the result, a call on an already-disconnected
manager changes nothing, and exceptions from the channel `stop()`s or the
connection `close()`s (the Boolean flags) never alter the outcome — each is
caught, so `disconnect` raises nothing. -/
theorem C8_disconnect_idempotent (nm : NMFull) (a b c a2 b2 c2 : Bool) :
    (nmDisconnect nm a b c).state = ConnectionState.disconnected ∧
    nmDisconnect (nmDisconnect nm a b c) a2 b2 c2 = nmDisconnect nm a b c ∧
    (nm.state = ConnectionState.disconnected → nmDisconnect nm a b c = nm) := by
  by_cases h : nm.state = ConnectionState.disconnected <;>
    simp [nmDisconnect, nmDisconnectInternal, h]

/-- Witness for C8: two consecutive disconnects from `Connected`, and a
disconnect of an already-disconnected manager. -/
theorem C8_witness :
    (nmDisconnect ⟨ConnectionState.connected, true, true, true, true⟩
      false false false).state = ConnectionState.disconnected ∧
    nmDisconnect (nmDisconnect ⟨ConnectionState.connected, true, true, true, true⟩
        false false false) false false false =
      nmDisconnect ⟨ConnectionState.connected, true, true, true, true⟩
        false false false ∧
    nmDisconnect ⟨ConnectionState.disconnected, false, false, false, false⟩
        false false false =
      ⟨ConnectionState.disconnected, false, false, false, false⟩ := by
  refine ⟨(C8_disconnect_idempotent
      ⟨ConnectionState.connected, true, true, true, true⟩
      false false false false false false).1,
    (C8_disconnect_idempotent
      ⟨ConnectionState.connected, true, true, true, true⟩
      false false false false false false).2.1,
    (C8_disconnect_idempotent
      ⟨ConnectionState.disconnected, false, false, false, false⟩
      false false false false false false).2.2 rfl⟩

/-- Helper for C9: no exception ever escapes `_connect_loop` — every exit
path of the loop returns normally. -/
theorem connectLoopGo_never_raises (outcome : ℕ → AttemptOutcome) (delay : ℚ)
    (maxAttempts : ℕ) :
    ∀ (fuel attempt built : ℕ) (sleepsRev : List ℚ),
      (connectLoopGo outcome delay maxAttempts attempt built sleepsRev
        fuel).raised = false := by
  intro fuel
  induction fuel with
  | zero => intro attempt built sleepsRev; rfl
  | succ n ih =>
      intro attempt built sleepsRev
      conv_lhs => rw [connectLoopGo]
      cases outcome attempt with
      | success => rfl
      | controlFail =>
          by_cases h : maxAttempts ≤ attempt + 1 <;> simp [h, ih]
      | videoFail =>
          by_cases h : maxAttempts ≤ attempt + 1 <;> simp [h, ih]

/-- Helper for C9: when no attempt succeeds, the loop ends `Disconnected`. -/
theorem connectLoopGo_allFail_disconnected (outcome : ℕ → AttemptOutcome)
    (delay : ℚ) (maxAttempts : ℕ)
    (hfail : ∀ k, outcome k ≠ AttemptOutcome.success) :
    ∀ (fuel attempt built : ℕ) (sleepsRev : List ℚ),
      attempt + fuel = maxAttempts → 1 ≤ fuel →
      (connectLoopGo outcome delay maxAttempts attempt built sleepsRev
        fuel).finalState = ConnectionState.disconnected := by
  intro fuel
  induction fuel with
  | zero => intro attempt built sleepsRev _ h1; exact absurd h1 (by omega)
  | succ n ih =>
      intro attempt built sleepsRev hsum _
      conv_lhs => rw [connectLoopGo]
      cases hk : outcome attempt with
      | success => exact absurd hk (hfail attempt)
      | controlFail =>
          cases n with
          | zero =>
              have hle : maxAttempts ≤ attempt + 1 := by omega
              simp [hle]
          | succ m =>
              have hlt : ¬ maxAttempts ≤ attempt + 1 := by omega
              simp only [hlt, if_false]
              exact ih (attempt + 1) _ _ (by omega) (by omega)
      | videoFail =>
          cases n with
          | zero =>
              have hle : maxAttempts ≤ attempt + 1 := by omega
              simp [hle]
          | succ m =>
              have hlt : ¬ maxAttempts ≤ attempt + 1 := by omega
              simp only [hlt, if_false]
              exact ih (attempt + 1) _ _ (by omega) (by omega)

/-- C9 (confirmed): from any state other than `Connected`, `connect` returns
immediately with state `Connecting`, no exception raised, and the retry loop
started on a background thread; the loop itself never raises, and when every
attempt fails it signals the failure only by setting the state back to
`Disconnected`. -/
theorem C9_connect_is_asynchronous (st : ConnectionState)
    (h : st ≠ ConnectionState.connected)
    (outcome : ℕ → AttemptOutcome) (delay : ℚ) (maxAttempts : ℕ) :
    nmConnect st = ⟨ConnectionState.connecting, false, true⟩ ∧
    (connectLoop outcome delay maxAttempts).raised = false ∧
    ((∀ k, outcome k ≠ AttemptOutcome.success) → 1 ≤ maxAttempts →
      (connectLoop outcome delay maxAttempts).finalState =
        ConnectionState.disconnected) := by
  refine ⟨by simp [nmConnect, h], connectLoopGo_never_raises _ _ _ _ _ _ _,
    fun hfail hmax => connectLoopGo_allFail_disconnected _ _ _ hfail
      maxAttempts 0 0 [] (by omega) hmax⟩

/-- Witness for C9: connecting from `Disconnected` against a double whose
control connect always fails. -/
theorem C9_witness :
    nmConnect ConnectionState.disconnected =
      ⟨ConnectionState.connecting, false, true⟩ ∧
    (connectLoop (fun _ => AttemptOutcome.controlFail) 1 1).raised = false ∧
    (connectLoop (fun _ => AttemptOutcome.controlFail) 1 1).finalState =
      ConnectionState.disconnected := by
  have h := C9_connect_is_asynchronous ConnectionState.disconnected (by decide)
    (fun _ => AttemptOutcome.controlFail) 1 1
  exact ⟨h.1, h.2.1,
    h.2.2 (fun _ => by decide) (by norm_num)⟩

/-- C10 (confirmed): `get_frame` returns `None` whenever the stream is not
running — even with a frame still stored in the latest-frame slot — so after
`stop()` (which also sets the frame-ready event) or after the reader loop
hits a `ConnectionError` (which clears `running`), previously delivered
frames become unreachable through `get_frame`. -/
theorem C10_get_frame_requires_running (s : VideoState) :
    (s.running = false → getFrame s = none) ∧
    getFrame (videoStop s) = none ∧
    getFrame (streamLoopOnConnError s) = none := by
  refine ⟨fun h => by simp [getFrame, h], ?_, by simp [getFrame, streamLoopOnConnError]⟩
  by_cases h : s.running = false <;> simp [videoStop, getFrame, h]

/-- Witness for C10: a stopped stream with a stored frame and the
frame-ready event set still answers `None`. -/
theorem C10_witness :
    getFrame ⟨[], false, true, some [1], []⟩ = none ∧
    getFrame (videoStop ⟨[], true, true, some [1], []⟩) = none ∧
    getFrame (streamLoopOnConnError ⟨[], true, true, some [1], []⟩) = none := by
  refine ⟨(C10_get_frame_requires_running ⟨[], false, true, some [1], []⟩).1 rfl,
    (C10_get_frame_requires_running ⟨[], true, true, some [1], []⟩).2.1,
    (C10_get_frame_requires_running ⟨[], true, true, some [1], []⟩).2.2⟩
